import Mathlib

/-!
Verification of the zkp-rs substring-proof core: a shallow embedding of the
configuration model, trace generator, AIR constraint system, native substring
circuit and the STARK prover orchestration (`src/circuits/*.rs`,
`src/backend/stark_prover.rs`, `src/config.rs`, `src/core/types.rs`,
`src/error.rs`), together with theorems settling the frozen claims about them.

Machine integers: all Rust `u8`/`usize` values are represented as `Nat`
(no arithmetic in the sources can overflow on the inputs the claims range
over); field elements of the Goldilocks field are represented as
`ZMod 18446744069414584321`.
-/

set_option linter.unusedVariables false

/-! ## SHA-256

Modelled from the spec: the repository consumes an external hashing primitive
`hash(bytes) -> 32-byte digest` (the `sha2` crate, re-exported by
`src/hash/sha256.rs` as a pure pass-through). The spec names it an external
collaborator, so it is reproduced here as FIPS 180-4 SHA-256 over byte lists,
validated against the standard test vectors. -/

/-- Reduction modulo 2^32, the word size of SHA-256. -/
def wordMod (n : Nat) : Nat := n % 4294967296

/-- Right rotation of a 32-bit word by `k` bits. -/
def rotr (k n : Nat) : Nat := wordMod ((n >>> k) ||| (n <<< (32 - k)))

def bigSigma0 (x : Nat) : Nat := Nat.xor (rotr 2 x) (Nat.xor (rotr 13 x) (rotr 22 x))

def bigSigma1 (x : Nat) : Nat := Nat.xor (rotr 6 x) (Nat.xor (rotr 11 x) (rotr 25 x))

def smallSigma0 (x : Nat) : Nat := Nat.xor (rotr 7 x) (Nat.xor (rotr 18 x) (x >>> 3))

def smallSigma1 (x : Nat) : Nat := Nat.xor (rotr 17 x) (Nat.xor (rotr 19 x) (x >>> 10))

def chFn (x y z : Nat) : Nat := Nat.xor (Nat.land x y) (Nat.land (Nat.xor x 4294967295) z)

def majFn (x y z : Nat) : Nat := Nat.xor (Nat.land x y) (Nat.xor (Nat.land x z) (Nat.land y z))

/-- The 64 SHA-256 round constants. -/
def shaK : List Nat :=
  [1116352408, 1899447441, 3049323471, 3921009573, 961987163, 1508970993, 2453635748, 2870763221,
   3624381080, 310598401, 607225278, 1426881987, 1925078388, 2162078206, 2614888103, 3248222580,
   3835390401, 4022224774, 264347078, 604807628, 770255983, 1249150122, 1555081692, 1996064986,
   2554220882, 2821834349, 2952996808, 3210313671, 3336571891, 3584528711, 113926993, 338241895,
   666307205, 773529912, 1294757372, 1396182291, 1695183700, 1986661051, 2177026350, 2456956037,
   2730485921, 2820302411, 3259730800, 3345764771, 3516065817, 3600352804, 4094571909, 275423344,
   430227734, 506948616, 659060556, 883997877, 958139571, 1322822218, 1537002063, 1747873779,
   1955562222, 2024104815, 2227730452, 2361852424, 2428436474, 2756734187, 3204031479, 3329325298]

/-- The eight 32-bit working registers of SHA-256. -/
structure ShaState where
  a : Nat
  b : Nat
  c : Nat
  d : Nat
  e : Nat
  f : Nat
  g : Nat
  h : Nat

/-- The SHA-256 initial hash value. -/
def shaInit : ShaState :=
  ⟨1779033703, 3144134277, 1013904242, 2773480762, 1359893119, 2600822924, 528734635, 1541459225⟩

/-- Next message-schedule word from the words computed so far. -/
def scheduleNext (w : List Nat) : Nat :=
  let n := w.length
  wordMod (smallSigma1 (w.getD (n - 2) 0) + w.getD (n - 7) 0 +
           smallSigma0 (w.getD (n - 15) 0) + w.getD (n - 16) 0)

/-- The 16 initial schedule words of a 64-byte block (big-endian). -/
def blockWords (blk : List Nat) : List Nat :=
  (List.range 16).map fun i =>
    (blk.getD (4 * i) 0) * 16777216 + (blk.getD (4 * i + 1) 0) * 65536 +
    (blk.getD (4 * i + 2) 0) * 256 + blk.getD (4 * i + 3) 0

/-- The full 64-word message schedule of a block. -/
def schedule (blk : List Nat) : List Nat :=
  (List.range 48).foldl (fun w _ => w ++ [scheduleNext w]) (blockWords blk)

/-- One SHA-256 compression round, consuming a (round constant, schedule word) pair. -/
def shaRound (st : ShaState) (kw : Nat × Nat) : ShaState :=
  let t1 := wordMod (st.h + bigSigma1 st.e + chFn st.e st.f st.g + kw.1 + kw.2)
  let t2 := wordMod (bigSigma0 st.a + majFn st.a st.b st.c)
  ⟨wordMod (t1 + t2), st.a, st.b, st.c, wordMod (st.d + t1), st.e, st.f, st.g⟩

/-- Compress one 64-byte block into the running state. -/
def processBlock (st : ShaState) (blk : List Nat) : ShaState :=
  let fin := (shaK.zip (schedule blk)).foldl shaRound st
  ⟨wordMod (st.a + fin.a), wordMod (st.b + fin.b), wordMod (st.c + fin.c), wordMod (st.d + fin.d),
   wordMod (st.e + fin.e), wordMod (st.f + fin.f), wordMod (st.g + fin.g), wordMod (st.h + fin.h)⟩

/-- A 64-bit value as 8 big-endian bytes. -/
def be64 (n : Nat) : List Nat :=
  [n >>> 56 % 256, n >>> 48 % 256, n >>> 40 % 256, n >>> 32 % 256,
   n >>> 24 % 256, n >>> 16 % 256, n >>> 8 % 256, n % 256]

/-- SHA-256 padding: 128, zeros to 56 mod 64, then the bit length as 8 bytes. -/
def sha256pad (msg : List Nat) : List Nat :=
  let l := msg.length
  let zeros := (64 + 56 - (l + 1) % 64) % 64
  msg ++ [128] ++ List.replicate zeros 0 ++ be64 (8 * l)

/-- Split a byte list into 64-byte blocks (fuel-based structural recursion). -/
def toBlocksGo : Nat → List Nat → List (List Nat)
  | 0, _ => []
  | _ + 1, [] => []
  | fuel + 1, bs => bs.take 64 :: toBlocksGo fuel (bs.drop 64)

/-- A 32-bit word as 4 big-endian bytes. -/
def be4 (w : Nat) : List Nat := [w >>> 24 % 256, w >>> 16 % 256, w >>> 8 % 256, w % 256]

/-- The 32-byte digest of a final state. -/
def ShaState.digest (s : ShaState) : List Nat :=
  be4 s.a ++ be4 s.b ++ be4 s.c ++ be4 s.d ++ be4 s.e ++ be4 s.f ++ be4 s.g ++ be4 s.h

/-- SHA-256 of a byte list. -/
def sha256 (msg : List Nat) : List Nat :=
  let padded := sha256pad msg
  ((toBlocksGo padded.length padded).foldl processBlock shaInit).digest

/-! ## UTF-8 lossy decoding and substring search

Modelled from the spec: `StarkProver::extract_offset` calls the Rust standard
library's `String::from_utf8_lossy` (WHATWG maximal-subpart replacement of
ill-formed subsequences by U+FFFD = bytes EF BF BD) followed by `str::find`
with a string pattern (first occurrence, returned as a byte index). Both are
external to the repository, so they are reproduced here at the byte level,
following the documented semantics of `core::str`. -/

/-- The UTF-8 encoding of U+FFFD REPLACEMENT CHARACTER. -/
def replacementBytes : List Nat := [239, 191, 189]

/-- Whether a byte is a UTF-8 continuation byte (128–191). -/
def isCont (b : Nat) : Bool := 128 ≤ b && b ≤ 191

/-- Byte-level `String::from_utf8_lossy`: well-formed sequences pass through,
each maximal ill-formed subpart becomes one replacement character. The fuel
argument bounds the recursion; every step consumes at least one byte, so fuel
equal to the input length is exact. -/
def lossyGo : Nat → List Nat → List Nat
  | 0, _ => []
  | _ + 1, [] => []
  | fuel + 1, b :: rest =>
    if b ≤ 127 then b :: lossyGo fuel rest
    else if 194 ≤ b && b ≤ 223 then
      match rest with
      | [] => replacementBytes
      | c1 :: rest2 =>
        if isCont c1 then b :: c1 :: lossyGo fuel rest2
        else replacementBytes ++ lossyGo fuel rest
    else if 224 ≤ b && b ≤ 239 then
      match rest with
      | [] => replacementBytes
      | c1 :: rest2 =>
        let ok1 : Bool :=
          if b = 224 then 160 ≤ c1 && c1 ≤ 191
          else if b = 237 then 128 ≤ c1 && c1 ≤ 159
          else isCont c1
        if !ok1 then replacementBytes ++ lossyGo fuel rest
        else match rest2 with
          | [] => replacementBytes
          | c2 :: rest3 =>
            if isCont c2 then b :: c1 :: c2 :: lossyGo fuel rest3
            else replacementBytes ++ lossyGo fuel rest2
    else if 240 ≤ b && b ≤ 244 then
      match rest with
      | [] => replacementBytes
      | c1 :: rest2 =>
        let ok1 : Bool :=
          if b = 240 then 144 ≤ c1 && c1 ≤ 191
          else if b = 244 then 128 ≤ c1 && c1 ≤ 143
          else isCont c1
        if !ok1 then replacementBytes ++ lossyGo fuel rest
        else match rest2 with
          | [] => replacementBytes
          | c2 :: rest3 =>
            if !isCont c2 then replacementBytes ++ lossyGo fuel rest2
            else match rest3 with
              | [] => replacementBytes
              | c3 :: rest4 =>
                if isCont c3 then b :: c1 :: c2 :: c3 :: lossyGo fuel rest4
                else replacementBytes ++ lossyGo fuel rest3
    else replacementBytes ++ lossyGo fuel rest

/-- Byte-level `String::from_utf8_lossy`. -/
def utf8Lossy (bs : List Nat) : List Nat := lossyGo bs.length bs

/-- Byte-level `str::find` with a string pattern: the least byte index at which
the pattern occurs, if any. An empty pattern matches at index 0. (On valid
UTF-8 haystacks — the only inputs Rust can pass it — byte-level search and
character-level search coincide, because UTF-8 is self-synchronizing.) -/
def findSub (hay pat : List Nat) : Option Nat :=
  if pat.isPrefixOf hay then some 0
  else match hay with
  | [] => none
  | _ :: t => (findSub t pat).map (· + 1)

/-! ## The Goldilocks field

The sources use `p3_goldilocks::Goldilocks`, the prime field of order
2^64 - 2^32 + 1, through its ring operations, the identities `ZERO`/`ONE`,
the embedding `from_int` of small unsigned integers and the canonical
representative `as_canonical_u64`. -/

/-- Order of the Goldilocks field: 2^64 - 2^32 + 1. -/
def goldilocksP : Nat := 18446744069414584321

/-- The Goldilocks field. -/
abbrev F : Type := ZMod goldilocksP

/-- The canonical embedding `F::from_int` of an unsigned integer. -/
def toF (n : Nat) : F := (n : F)

/-- The canonical representative `as_canonical_u64` of a field element. -/
def fVal (x : F) : Nat := x.val

/-- A `u64` as 8 little-endian bytes (`to_le_bytes`). -/
def leBytes8 (n : Nat) : List Nat :=
  [n % 256, n >>> 8 % 256, n >>> 16 % 256, n >>> 24 % 256,
   n >>> 32 % 256, n >>> 40 % 256, n >>> 48 % 256, n >>> 56 % 256]

/-! ## Core data model (`src/core/types.rs`, `src/config.rs`, `src/error.rs`) -/

/-- Rust `Commitment`: a data commitment, an arbitrary byte vector. -/
structure Commitment where
  inner : List Nat
deriving DecidableEq

/-- Rust `Claim`: the public predicate. The single variant `Substring { value }`
carries a Rust `String`; it is represented by its UTF-8 bytes (the encoding
is injective, so bytewise equality coincides with string equality). -/
inductive Claim where
  | substring (value : List Nat)
deriving DecidableEq

/-- Rust `Statement`: commitment plus claim, fully public. -/
structure Statement where
  commitment : Commitment
  claim : Claim
deriving DecidableEq

/-- Rust `Witness`: the private document bytes. -/
structure Witness where
  plaintext : List Nat
deriving DecidableEq

/-- Rust `ZkpError` (`src/error.rs`). -/
inductive ZkpError where
  | invalidWitness (msg : String)
  | invalidPublicInput (msg : String)
  | constraintNotSatisfied (msg : String)
  | proofGenerationFailed (msg : String)
  | proofVerificationFailed (msg : String)
  | configurationError (msg : String)
  | serializationError (msg : String)
  | internalError (msg : String)
deriving DecidableEq

/-- The `thiserror` display text of an error (prefix + payload message). -/
def ZkpError.display : ZkpError → String
  | .invalidWitness m => "Invalid witness: " ++ m
  | .invalidPublicInput m => "Invalid public input: " ++ m
  | .constraintNotSatisfied m => "Constraint not satisfied: " ++ m
  | .proofGenerationFailed m => "Proof generation failed: " ++ m
  | .proofVerificationFailed m => "Proof verification failed: " ++ m
  | .configurationError m => "Configuration error: " ++ m
  | .serializationError m => "Serialization error: " ++ m
  | .internalError m => "Internal error: " ++ m

/-- Whether an error is the `InvalidWitness` variant. -/
def ZkpError.isInvalidWitness : ZkpError → Bool
  | .invalidWitness _ => true
  | _ => false

/-- Rust `CircuitConfig` (`src/config.rs`). -/
structure CircuitConfig where
  max_text_len : Nat
  max_substring_len : Nat
  enable_multi_block_sha : Bool
deriving DecidableEq

/-- The `Default` instance of `CircuitConfig`. -/
def CircuitConfig.default : CircuitConfig := ⟨55, 32, false⟩

/-- A 32-byte digest, the representation of Rust `[u8; 32]`. -/
abbrev Digest : Type := { l : List Nat // l.length = 32 }

/-- The all-zero digest `[0u8; 32]`. -/
def zeroDigest : Digest := ⟨List.replicate 32 0, by simp⟩

/-- Rust `Vec<u8> -> [u8; 32]` conversion (`try_into`): succeeds exactly on
length-32 vectors. -/
def digestOfList (l : List Nat) : Option Digest :=
  if h : l.length = 32 then some ⟨l, h⟩ else none

/-- Rust `PublicInputs` (`src/config.rs`): 32-byte commitment plus substring bytes. -/
structure PublicInputs where
  commitment : Digest
  substring : List Nat
deriving DecidableEq

/-- Rust `CircuitWitness` (`src/config.rs`): document bytes plus match offset. -/
structure CircuitWitness where
  plaintext : List Nat
  offset : Nat
deriving DecidableEq

/-- Rust `CircuitParams` (`src/config.rs`). -/
structure CircuitParams where
  config : CircuitConfig
  public_inputs : PublicInputs
  witness : Option CircuitWitness
deriving DecidableEq

/-! ## Trace layout and traces (`src/circuits/trace.rs`) -/

/-- A `std::ops::Range<usize>`. -/
structure NRange where
  start : Nat
  stop : Nat
deriving DecidableEq

/-- Rust `Range::len`. -/
def NRange.len (r : NRange) : Nat := r.stop - r.start

/-- Rust `TraceLayout` (`src/circuits/trace.rs`). -/
structure TraceLayout where
  sha_state_cols : NRange
  sha_schedule_cols : NRange
  plaintext_col : Nat
  substring_col : Nat
  match_flag_col : Nat
  offset_indicator_col : Nat
  range_check_col : Nat
  total_columns : Nat
deriving DecidableEq

/-- The `Default` instance of `TraceLayout`. -/
def TraceLayout.default : TraceLayout :=
  ⟨⟨0, 32⟩, ⟨32, 96⟩, 96, 97, 98, 99, 100, 101⟩

/-- An execution trace `Vec<Vec<F>>` in column-major form: `numCols` column
vectors of `numRows` entries each (`trace.len()` and `trace[0].len()` in the
sources); `cell c r` is `trace[c][r]`. Cells are total functions: every read
the sources perform is within bounds on the traces they build. -/
structure Trace where
  numCols : Nat
  numRows : Nat
  cell : Nat → Nat → F

/-- The imperative cell assignment `trace[c][r] = v`. -/
def Trace.set (t : Trace) (c r : Nat) (v : F) : Trace :=
  { t with cell := fun c2 r2 => if c2 = c ∧ r2 = r then v else t.cell c2 r2 }

/-- A fresh all-zero trace `vec![vec![F::ZERO; rows]; cols]`. -/
def Trace.zero (cols rows : Nat) : Trace := ⟨cols, rows, fun _ _ => 0⟩

/-! ## TraceGenerator (`src/circuits/trace.rs`) -/

/-- Rust `TraceGenerator`: default layout plus the configuration
(`TraceGenerator::new`). -/
structure TraceGenerator where
  layout : TraceLayout
  config : CircuitConfig

/-- Rust `TraceGenerator::new`. -/
def TraceGenerator.new (config : CircuitConfig) : TraceGenerator :=
  ⟨TraceLayout.default, config⟩

/-- The trace length computed for a present witness: the SHA step count
(64 per block, single block unless multi-block is enabled), the byte count,
and the floor of 64, combined with `max`. -/
def traceLengthOfWitness (config : CircuitConfig) (w : CircuitWitness) : Nat :=
  let sha_steps :=
    if config.enable_multi_block_sha then ((w.plaintext.length + 63) / 64) * 64
    else 64
  max (max sha_steps w.plaintext.length) 64

/-- Rust `TraceGenerator::compute_trace_length`. The source unwraps the witness
with `expect("Witness required for trace generation")`, which aborts the
process when the witness is absent; the abort is modelled as `none`. -/
def TraceGenerator.compute_trace_length (g : TraceGenerator) (params : CircuitParams) :
    Option Nat :=
  match params.witness with
  | none => none
  | some w => some (traceLengthOfWitness g.config w)

/-- The loop of `generate_sha256_trace`: for each digest byte `b` at index
`i`, write it to column `sha_state_cols.start + i`, row `L - 32 + i`, guarded
by `i < sha_state_cols.len() && L > 32`. -/
def shaTraceLoop (layout : TraceLayout) (L : Nat) : List Nat → Nat → Trace → Trace
  | [], _, t => t
  | b :: rest, i, t =>
    shaTraceLoop layout L rest (i + 1)
      (if i < layout.sha_state_cols.len ∧ 32 < L then
        t.set (layout.sha_state_cols.start + i) (L - 32 + i) (toF b)
      else t)

/-- Rust `TraceGenerator::generate_sha256_trace`: store the reference digest of the
document in the terminal rows of the hash-state region (guarded by `L >= 32`). -/
def TraceGenerator.generate_sha256_trace (g : TraceGenerator) (w : CircuitWitness)
    (L : Nat) (t : Trace) : Trace :=
  if 32 ≤ L then shaTraceLoop g.layout L (sha256 w.plaintext) 0 t else t

/-- The loop of `generate_byte_trace`: copy document byte `i` into the
plaintext column at row `i`, guarded by `i < L`. -/
def byteTraceLoop (layout : TraceLayout) (L : Nat) : List Nat → Nat → Trace → Trace
  | [], _, t => t
  | b :: rest, i, t =>
    byteTraceLoop layout L rest (i + 1)
      (if i < L then t.set layout.plaintext_col i (toF b) else t)

/-- Rust `TraceGenerator::generate_byte_trace`. -/
def TraceGenerator.generate_byte_trace (g : TraceGenerator) (w : CircuitWitness)
    (L : Nat) (t : Trace) : Trace :=
  byteTraceLoop g.layout L w.plaintext 0 t

/-- The loop of `TraceGenerator::generate_substring_trace`: for substring byte
`b` at index `i` and `pos = offset + i` with `pos < L`, write the substring
byte, set the offset indicator to 1, and set the match flag to 1 exactly when
the document byte at `pos` exists and equals `b`. -/
def subTraceLoop (layout : TraceLayout) (plaintext : List Nat) (offset L : Nat) :
    List Nat → Nat → Trace → Trace
  | [], _, t => t
  | b :: rest, i, t =>
    subTraceLoop layout plaintext offset L rest (i + 1)
      (let pos := offset + i
       if pos < L then
         let t1 := t.set layout.substring_col pos (toF b)
         let t2 := t1.set layout.offset_indicator_col pos 1
         if pos < plaintext.length ∧ plaintext.getD pos 0 = b then
           t2.set layout.match_flag_col pos 1
         else t2
       else t)

/-- Rust `TraceGenerator::generate_substring_trace`. -/
def TraceGenerator.generate_substring_trace (g : TraceGenerator) (params : CircuitParams)
    (w : CircuitWitness) (L : Nat) (t : Trace) : Trace :=
  subTraceLoop g.layout w.plaintext w.offset L params.public_inputs.substring 0 t

/-- The loop of `generate_range_check_trace`: set the range-check flag to 1 at
every row holding a document byte, guarded by `i < L`. -/
def rangeTraceLoop (layout : TraceLayout) (L : Nat) : List Nat → Nat → Trace → Trace
  | [], _, t => t
  | _ :: rest, i, t =>
    rangeTraceLoop layout L rest (i + 1)
      (if i < L then t.set layout.range_check_col i 1 else t)

/-- Rust `TraceGenerator::generate_range_check_trace`. -/
def TraceGenerator.generate_range_check_trace (g : TraceGenerator) (w : CircuitWitness)
    (L : Nat) (t : Trace) : Trace :=
  rangeTraceLoop g.layout L w.plaintext 0 t

/-- Rust `TraceGenerator::generate_trace`: checks only that the witness is present
(`ok_or(InvalidWitness("Missing witness"))`), then zero-initializes and fills
the four column groups. -/
def TraceGenerator.generate_trace (g : TraceGenerator) (params : CircuitParams) :
    Except ZkpError Trace :=
  match params.witness with
  | none => .error (.invalidWitness "Missing witness")
  | some w =>
    let L := traceLengthOfWitness g.config w
    let t0 := Trace.zero g.layout.total_columns L
    let t1 := g.generate_sha256_trace w L t0
    let t2 := g.generate_byte_trace w L t1
    let t3 := g.generate_substring_trace params w L t2
    let t4 := g.generate_range_check_trace w L t3
    .ok t4

/-! ## SubstringAIR (`src/circuits/air.rs`) -/

/-- Rust `SubstringAIR`: layout plus configuration. -/
structure SubstringAIR where
  layout : TraceLayout
  config : CircuitConfig

/-- Rust `SubstringAIR::new`. -/
def SubstringAIR.new (config : CircuitConfig) (layout : TraceLayout) : SubstringAIR :=
  ⟨layout, config⟩

/-- Rust `SubstringAIR::num_sha256_constraints`: 32 constraints for the final hash
comparison. -/
def SubstringAIR.num_sha256_constraints (air : SubstringAIR) : Nat := 32

/-- Rust `SubstringAIR::num_substring_constraints`: one per possible position. -/
def SubstringAIR.num_substring_constraints (air : SubstringAIR) : Nat :=
  air.config.max_text_len

/-- Rust `SubstringAIR::num_range_constraints`: one per byte. -/
def SubstringAIR.num_range_constraints (air : SubstringAIR) : Nat :=
  air.config.max_text_len

/-- Rust `SubstringAIR::num_logic_constraints`. -/
def SubstringAIR.num_logic_constraints (air : SubstringAIR) : Nat :=
  air.config.max_text_len * 2

/-- Rust `SubstringAIR::num_constraints`. -/
def SubstringAIR.num_constraints (air : SubstringAIR) : Nat :=
  air.num_sha256_constraints + air.num_substring_constraints +
    air.num_range_constraints + air.num_logic_constraints

/-- The loop of `evaluate_sha256_constraints`: for commitment byte `b` at index
`i`, if `i < sha_state_cols.len() && L >= 32`, push
`trace[start + i][min(L - 32 + i, L - 1)] - b`. -/
def shaConsLoop (layout : TraceLayout) (t : Trace) (L : Nat) : List Nat → Nat → List F
  | [], _ => []
  | b :: rest, i =>
    (if i < layout.sha_state_cols.len ∧ 32 ≤ L then
      [t.cell (layout.sha_state_cols.start + i) (min (L - 32 + i) (L - 1)) - toF b]
    else []) ++ shaConsLoop layout t L rest (i + 1)

/-- Rust `SubstringAIR::evaluate_sha256_constraints`. -/
def SubstringAIR.evaluate_sha256_constraints (air : SubstringAIR) (t : Trace)
    (public_inputs : PublicInputs) : List F :=
  shaConsLoop air.layout t t.numRows public_inputs.commitment.val 0

/-- The inner row loop of `evaluate_substring_constraints`: for each row, push
`offset_indicator * (substring_byte - expected)` and
`offset_indicator * (plaintext_byte - substring_byte)`. -/
def subConsRowLoop (layout : TraceLayout) (t : Trace) (expected : F) : List Nat → List F
  | [] => []
  | row :: rest =>
    t.cell layout.offset_indicator_col row * (t.cell layout.substring_col row - expected) ::
    t.cell layout.offset_indicator_col row *
      (t.cell layout.plaintext_col row - t.cell layout.substring_col row) ::
    subConsRowLoop layout t expected rest

/-- The outer byte loop of `evaluate_substring_constraints`: every disclosed
substring byte is paired with every row. -/
def subConsLoop (layout : TraceLayout) (t : Trace) (L : Nat) : List Nat → List F
  | [] => []
  | b :: rest =>
    subConsRowLoop layout t (toF b) (List.range L) ++ subConsLoop layout t L rest

/-- Rust `SubstringAIR::evaluate_substring_constraints`. -/
def SubstringAIR.evaluate_substring_constraints (air : SubstringAIR) (t : Trace)
    (public_inputs : PublicInputs) : List F :=
  subConsLoop air.layout t t.numRows public_inputs.substring

/-- Rust `SubstringAIR::evaluate_range_constraints`: per row, the boolean constraint
`range_flag * (range_flag - 1)`. -/
def SubstringAIR.evaluate_range_constraints (air : SubstringAIR) (t : Trace) : List F :=
  (List.range t.numRows).map fun row =>
    t.cell air.layout.range_check_col row * (t.cell air.layout.range_check_col row - 1)

/-- The per-row part of `evaluate_logic_constraints`: indicator boolean, match
flag boolean, indicator implies match. -/
def logicConsRowLoop (layout : TraceLayout) (t : Trace) : List Nat → List F
  | [] => []
  | row :: rest =>
    t.cell layout.offset_indicator_col row * (t.cell layout.offset_indicator_col row - 1) ::
    t.cell layout.match_flag_col row * (t.cell layout.match_flag_col row - 1) ::
    t.cell layout.offset_indicator_col row * (1 - t.cell layout.match_flag_col row) ::
    logicConsRowLoop layout t rest

/-- Rust `SubstringAIR::evaluate_logic_constraints`: the three per-row constraints
plus the global window-sum constraint `Σ offset_indicator - |substring|`. -/
def SubstringAIR.evaluate_logic_constraints (air : SubstringAIR) (t : Trace)
    (public_inputs : PublicInputs) : List F :=
  let window_sum :=
    (List.range t.numRows).foldl
      (fun acc row => acc + t.cell air.layout.offset_indicator_col row) 0
  logicConsRowLoop air.layout t (List.range t.numRows) ++
    [window_sum - toF public_inputs.substring.length]

/-- Rust `SubstringAIR::evaluate_constraints`: the four families in order. The Rust
signature returns `Result`, but no branch returns `Err`; the result is modelled
as the constraint list itself. -/
def SubstringAIR.evaluate_constraints (air : SubstringAIR) (t : Trace)
    (public_inputs : PublicInputs) : List F :=
  air.evaluate_sha256_constraints t public_inputs ++
    air.evaluate_substring_constraints t public_inputs ++
    air.evaluate_range_constraints t ++
    air.evaluate_logic_constraints t public_inputs

/-- Rust `SubstringAIR::verify_all_constraints`: true exactly when every constraint
evaluates to the additive identity (the Rust loop returns Ok(false) at the
first nonzero constraint). -/
def SubstringAIR.verify_all_constraints (air : SubstringAIR) (t : Trace)
    (public_inputs : PublicInputs) : Bool :=
  (air.evaluate_constraints t public_inputs).all fun c => c = 0

/-! ## SubstringCircuit (`src/circuits/substring_circuit.rs`) -/

/-- Rust `SubstringCircuit`. -/
structure SubstringCircuit where
  config : CircuitConfig

/-- Rust `SubstringCircuit::new`. -/
def SubstringCircuit.new (config : CircuitConfig) : SubstringCircuit := ⟨config⟩

/-- Rust `SubstringCircuit::validate_params`: witness present, document within
`max_text_len`, substring within `max_substring_len`,
`offset + |substring| <= |document|`. -/
def SubstringCircuit.validate_params (c : SubstringCircuit) (params : CircuitParams) :
    Except ZkpError Unit :=
  match params.witness with
  | none => .error (.invalidWitness "Missing witness")
  | some w =>
    if w.plaintext.length > c.config.max_text_len then
      .error (.invalidWitness "Plaintext too long")
    else if params.public_inputs.substring.length > c.config.max_substring_len then
      .error (.invalidWitness "Substring too long")
    else if w.offset + params.public_inputs.substring.length > w.plaintext.length then
      .error (.invalidWitness "Substring offset out of bounds")
    else .ok ()

/-- Rust `SubstringCircuit::verify_hash_constraint`: recompute the document hash and
compare it bytewise to the public commitment. -/
def SubstringCircuit.verify_hash_constraint (c : SubstringCircuit) (params : CircuitParams) :
    Except ZkpError Bool :=
  match params.witness with
  | none => .error (.invalidWitness "Missing witness")
  | some w => .ok (sha256 w.plaintext = params.public_inputs.commitment.val)

/-- Rust `SubstringCircuit::verify_substring_constraint`: compare the byte slice
`plaintext[offset .. offset + |substring|]` to the disclosed substring,
returning false when the window exceeds the document. -/
def SubstringCircuit.verify_substring_constraint (c : SubstringCircuit)
    (params : CircuitParams) : Except ZkpError Bool :=
  match params.witness with
  | none => .error (.invalidWitness "Missing witness")
  | some w =>
    let substring := params.public_inputs.substring
    if w.offset + substring.length > w.plaintext.length then .ok false
    else .ok ((w.plaintext.drop w.offset).take substring.length = substring)

/-- The plaintext loop of `SubstringCircuit::generate_trace` (column literal
96, no row guard in the source; the preceding validation keeps it in bounds). -/
def scByteLoop : List Nat → Nat → Trace → Trace
  | [], _, t => t
  | b :: rest, i, t => scByteLoop rest (i + 1) (t.set 96 i (toF b))

/-- The substring-window loop of `SubstringCircuit::generate_trace` (column
literals 97 and 98): write the substring byte and, when the document byte at
`pos` exists and matches, the match flag. -/
def scSubLoop (plaintext : List Nat) (offset L : Nat) : List Nat → Nat → Trace → Trace
  | [], _, t => t
  | b :: rest, i, t =>
    scSubLoop plaintext offset L rest (i + 1)
      (let pos := offset + i
       if pos < L then
         let t1 := t.set 97 pos (toF b)
         if pos < plaintext.length ∧ plaintext.getD pos 0 = b then t1.set 98 pos 1
         else t1
       else t)

/-- The offset-indicator loop of `SubstringCircuit::generate_trace` (column
literal 99), over `offset .. offset + |substring|`. -/
def scIndicatorLoop (L : Nat) : List Nat → Trace → Trace
  | [], t => t
  | i :: rest, t => scIndicatorLoop L rest (if i < L then t.set 99 i 1 else t)

/-- Rust `SubstringCircuit::generate_trace` (the `Circuit` trait implementation):
validate, then fill a `max(max_text_len, 64)`-row, 101-column trace. The
hash-state columns are left zero (the source has only a TODO there). -/
def SubstringCircuit.generate_trace (c : SubstringCircuit) (params : CircuitParams) :
    Except ZkpError Trace :=
  match c.validate_params params with
  | .error e => .error e
  | .ok _ =>
    match params.witness with
    | none => .error (.invalidWitness "Missing witness")
    | some w =>
      let trace_len := max c.config.max_text_len 64
      let t0 := Trace.zero 101 trace_len
      let t1 := scByteLoop w.plaintext 0 t0
      let t2 := scSubLoop w.plaintext w.offset trace_len params.public_inputs.substring 0 t1
      let t3 := scIndicatorLoop trace_len
        (List.range' w.offset params.public_inputs.substring.length) t2
      .ok t3

/-- Rust `SubstringCircuit::verify_constraints`: hash check, then byte-slice check,
then the row walk requiring that wherever the offset indicator is 1, the match
flag is 1 and the plaintext and substring cells agree (column literals
96–99 in the source). -/
def SubstringCircuit.verify_constraints (c : SubstringCircuit) (t : Trace)
    (params : CircuitParams) : Except ZkpError Bool :=
  match c.verify_hash_constraint params with
  | .error e => .error e
  | .ok hashOk =>
    if !hashOk then .ok false
    else
      match c.verify_substring_constraint params with
      | .error e => .error e
      | .ok subOk =>
        if !subOk then .ok false
        else
          .ok ((List.range t.numRows).all fun i =>
            if t.cell 99 i = 1 then
              decide (t.cell 98 i = 1) && decide (t.cell 96 i = t.cell 97 i)
            else true)

/-! ## StarkProver (`src/backend/stark_prover.rs`) -/

/-- The substring bytes of a statement's claim. -/
def claimValue (stmt : Statement) : List Nat :=
  match stmt.claim with
  | .substring v => v

/-- The failure tags `prove` can embed in a proof payload, one per literal
prefix (`ERROR:`, `TRACE_ERROR:`, `CONSTRAINT_ERROR:`, `STARK_ERROR:`). -/
inductive FailTag where
  | error
  | traceError
  | constraintError
  | starkError
deriving DecidableEq

/-- Rust `StarkProofData` (the serde proof envelope). -/
structure StarkProofData where
  trace_commitment : List Nat
  public_inputs : PublicInputs
  fri_proof : List Nat
  circuit_config : CircuitConfig
deriving DecidableEq

/-- A proof payload (`Proof.inner: Vec<u8>`), partitioned by the two
classifiers `verify` applies to the raw bytes: `failTag t m` stands for the
UTF-8 bytes of a failure-tag prefix followed by a message; `envelope d` for
the serde-JSON encoding of `d` (valid UTF-8 starting with a brace, hence
never carrying a failure-tag prefix, and decoding back to `d`); `raw bs` for
any other byte string (one that decodes as no envelope — a failure-tag-prefixed
byte string that is not valid UTF-8 also lands here, and is rejected by the
decode step instead of the prefix check, with the same result). -/
inductive ProofPayload where
  | failTag (tag : FailTag) (msg : String)
  | envelope (data : StarkProofData)
  | raw (bytes : List Nat)
deriving DecidableEq

/-- Rust `Proof` (`src/core/types.rs`). -/
structure Proof where
  inner : ProofPayload
deriving DecidableEq

/-- The failure-tag prefix check at the top of `verify` (`starts_with` on the
four literal prefixes). -/
def ProofPayload.isFailTagged : ProofPayload → Bool
  | .failTag _ _ => true
  | _ => false

/-- Serde-JSON deserialization of the envelope (`serde_json::from_slice`):
succeeds exactly on encoded envelopes. -/
def decodeEnvelope : ProofPayload → Option StarkProofData
  | .envelope d => some d
  | _ => none

/-- Rust `StarkProver`: the circuit it builds at construction plus its
configuration (`StarkProver::new`). -/
structure StarkProver where
  circuit : SubstringCircuit
  config : CircuitConfig

/-- Rust `StarkProver::new`. -/
def StarkProver.new (config : CircuitConfig) : StarkProver :=
  ⟨SubstringCircuit.new config, config⟩

/-- Rust `StarkProver::extract_offset`: find the claimed substring in the lossily
decoded document; the returned index is a byte offset into the lossy string. -/
def StarkProver.extract_offset (sp : StarkProver) (witness : Witness) (stmt : Statement) :
    Except ZkpError Nat :=
  match findSub (utf8Lossy witness.plaintext) (claimValue stmt) with
  | some offset => .ok offset
  | none => .error (.invalidWitness "Substring not found in plaintext")

/-- Rust `StarkProver::build_circuit_params`: extract the offset, then convert the
statement's commitment to a 32-byte array (`try_into`). -/
def StarkProver.build_circuit_params (sp : StarkProver) (stmt : Statement)
    (witness : Witness) : Except ZkpError CircuitParams :=
  match sp.extract_offset witness stmt with
  | .error e => .error e
  | .ok offset =>
    match digestOfList stmt.commitment.inner with
    | none => .error (.invalidPublicInput "Invalid commitment length")
    | some d =>
      .ok ⟨sp.config, ⟨d, claimValue stmt⟩, some ⟨witness.plaintext, offset⟩⟩

/-- The canonical byte stream of a trace: every field element of every column
vector, as `as_canonical_u64().to_le_bytes()`, in iteration order. -/
def canonicalTraceBytes (t : Trace) : List F :=
  (List.range t.numCols).flatMap fun c => (List.range t.numRows).map fun r => t.cell c r

/-- The byte stream hashed by `compute_trace_commitment` and
`generate_fri_proof`. -/
def traceByteStream (t : Trace) : List Nat :=
  (canonicalTraceBytes t).flatMap fun x => leBytes8 (fVal x)

/-- Rust `StarkProver::compute_trace_commitment`: SHA-256 over the canonical byte
stream. -/
def StarkProver.compute_trace_commitment (t : Trace) : List Nat :=
  sha256 (traceByteStream t)

/-- The domain separator `b"FRI_PROOF"`. -/
def friDomainSep : List Nat := [70, 82, 73, 95, 80, 82, 79, 79, 70]

/-- Rust `StarkProver::generate_fri_proof`: SHA-256 over the domain separator
followed by the canonical byte stream. -/
def StarkProver.generate_fri_proof (t : Trace) : List Nat :=
  sha256 (friDomainSep ++ traceByteStream t)

/-- Rust `StarkProver::generate_stark_proof`: package trace commitment, public
inputs, FRI placeholder and config into the envelope. Serde-JSON serialization
of this record never fails, so the `STARK_ERROR` branch of `prove` is
unreachable. -/
def StarkProver.generate_stark_proof (params : CircuitParams) (t : Trace) :
    StarkProofData :=
  ⟨StarkProver.compute_trace_commitment t, params.public_inputs,
   StarkProver.generate_fri_proof t, params.config⟩

/-- Rust `StarkProver::prove`: build params, generate the trace through the circuit,
run the native constraint check — note that only an `Err` from the check is
caught (`if let Err(e)`), an `Ok(false)` falls through — then package the
envelope. Each caught failure becomes a tagged, unverifiable payload. -/
def StarkProver.prove (sp : StarkProver) (stmt : Statement) (witness : Witness) : Proof :=
  match sp.build_circuit_params stmt witness with
  | .error e => ⟨.failTag .error e.display⟩
  | .ok params =>
    match sp.circuit.generate_trace params with
    | .error e => ⟨.failTag .traceError e.display⟩
    | .ok trace =>
      match sp.circuit.verify_constraints trace params with
      | .error e => ⟨.failTag .constraintError e.display⟩
      | .ok _ => ⟨.envelope (StarkProver.generate_stark_proof params trace)⟩

/-- Rust `StarkProver::extract_public_inputs`. -/
def StarkProver.extract_public_inputs (sp : StarkProver) (stmt : Statement) :
    Except ZkpError PublicInputs :=
  match digestOfList stmt.commitment.inner with
  | none => .error (.invalidPublicInput "Invalid commitment length")
  | some d => .ok ⟨d, claimValue stmt⟩

/-- Rust `StarkProver::basic_proof_validation`: 32-byte trace commitment, 32-byte
FRI proof, non-empty substring, commitment not the all-zero digest. -/
def StarkProver.basic_proof_validation (d : StarkProofData) : Bool :=
  decide (d.trace_commitment.length = 32) && decide (d.fri_proof.length = 32) &&
    !d.public_inputs.substring.isEmpty && decide (d.public_inputs.commitment ≠ zeroDigest)

/-- Rust `StarkProver::verify_stark_proof`: deserialize, require the embedded public
inputs to equal the expected ones bytewise, then the structural checks. -/
def StarkProver.verify_stark_proof (payload : ProofPayload) (public_inputs : PublicInputs) :
    Except ZkpError Bool :=
  match decodeEnvelope payload with
  | none => .error (.serializationError "Deserialization failed")
  | some d =>
    if d.public_inputs.commitment ≠ public_inputs.commitment ∨
        d.public_inputs.substring ≠ public_inputs.substring then .ok false
    else .ok (StarkProver.basic_proof_validation d)

/-- Rust `StarkProver::verify`: reject failure tags, extract the expected public
inputs, then `verify_stark_proof(..).unwrap_or(false)`. -/
def StarkProver.verify (sp : StarkProver) (stmt : Statement) (proof : Proof) : Bool :=
  if proof.inner.isFailTagged then false
  else
    match sp.extract_public_inputs stmt with
    | .error _ => false
    | .ok public_inputs =>
      match StarkProver.verify_stark_proof proof.inner public_inputs with
      | .error _ => false
      | .ok b => b

/-! ## Decidability instances and small observers -/

deriving instance DecidableEq for Except

/-- Whether an `Except` result is an `InvalidWitness` error. -/
def failsWithInvalidWitness {α : Type} : Except ZkpError α → Bool
  | .error (.invalidWitness _) => true
  | _ => false

/-! ## The three fallible steps of `prove`

The chain `prove` runs before packaging an envelope: parameter construction,
trace generation, and the native constraint check. `proveStepErrors` is true
exactly when one of them returns an `Err` (the only outcomes `prove` catches). -/

/-- Whether one of the three chained steps of `prove` returns an error. -/
def proveStepErrors (sp : StarkProver) (stmt : Statement) (witness : Witness) : Bool :=
  match sp.build_circuit_params stmt witness with
  | .error _ => true
  | .ok params =>
    match sp.circuit.generate_trace params with
    | .error _ => true
    | .ok trace =>
      match sp.circuit.verify_constraints trace params with
      | .error _ => true
      | .ok _ => false

/-- The claim's failure condition for trace generation: witness missing,
document over `max_text_len`, substring over `max_substring_len`, or
`offset + |substring| > |document|`. -/
def invalidWitnessCondition (cfg : CircuitConfig) (params : CircuitParams) : Bool :=
  match params.witness with
  | none => true
  | some w =>
    decide (w.plaintext.length > cfg.max_text_len) ||
    decide (params.public_inputs.substring.length > cfg.max_substring_len) ||
    decide (w.offset + params.public_inputs.substring.length > w.plaintext.length)

/-! ## Concrete inputs used by witnesses and counterexamples

`cfg0` is the configuration the repository's own tests construct
(`max_text_len = 32`, `max_substring_len = 16`, single-block SHA). -/

def cfg0 : CircuitConfig := ⟨32, 16, false⟩

def sp0 : StarkProver := StarkProver.new cfg0

/-- A 32-byte commitment of ones — a well-formed commitment that is not the
hash of any document used below. -/
def onesCommitment : Commitment := ⟨List.replicate 32 1⟩

/-- Statement claiming "a" against the all-ones commitment. -/
def c1stmt : Statement := ⟨onesCommitment, .substring [97]⟩

/-- Witness document "a". -/
def c1wit : Witness := ⟨[97]⟩

/-- The circuit parameters `build_circuit_params` assembles for `c1stmt`/`c1wit`. -/
def c1params : CircuitParams :=
  ⟨cfg0, ⟨⟨List.replicate 32 1, by decide⟩, [97]⟩, some ⟨[97], 0⟩⟩

/-- Honest public inputs for document "ab", substring "ab": the commitment is
the document's SHA-256 digest. -/
def c2pi : PublicInputs := ⟨⟨sha256 [97, 98], by decide⟩, [97, 98]⟩

/-- Honest circuit parameters for document "ab", substring "ab" at offset 0. -/
def c2params : CircuitParams := ⟨cfg0, c2pi, some ⟨[97, 98], 0⟩⟩

/-- Statement with the honest commitment to "a" and an empty claimed substring. -/
def c3stmt : Statement := ⟨⟨sha256 [97]⟩, .substring []⟩

/-- Witness document "a". -/
def c3wit : Witness := ⟨[97]⟩

/-- Statement claiming the replacement-character bytes EF BF BD. -/
def c4stmt : Statement := ⟨onesCommitment, .substring [239, 191, 189]⟩

/-- Witness document FF FF FF (not valid UTF-8; contains no EF BF BD). -/
def c4wit : Witness := ⟨[255, 255, 255]⟩

/-- Statement claiming "a". -/
def c5stmt : Statement := ⟨onesCommitment, .substring [97]⟩

/-- Witness document FF 61: byte "a" first occurs at byte index 1. -/
def c5wit : Witness := ⟨[255, 97]⟩

/-- A configuration whose document bound is 1 byte. -/
def cfgTiny : CircuitConfig := ⟨1, 16, false⟩

/-- Parameters with a present witness whose 2-byte document exceeds
`cfgTiny.max_text_len = 1`. -/
def c6params : CircuitParams :=
  ⟨cfgTiny, ⟨⟨List.replicate 32 1, by decide⟩, [97]⟩, some ⟨[97, 98], 0⟩⟩

/-- An all-zero 101-column, 64-row trace. -/
def c9trace : Trace := Trace.zero 101 64

/-- Public inputs with a 1-byte substring. -/
def c9piA : PublicInputs := ⟨⟨List.replicate 32 1, by decide⟩, [97]⟩

/-- Public inputs identical to `c9piA` except for a 2-byte substring. -/
def c9piB : PublicInputs := ⟨⟨List.replicate 32 1, by decide⟩, [97, 98]⟩

/-- Parameters whose witness is absent. -/
def c10params : CircuitParams := ⟨cfg0, ⟨⟨List.replicate 32 1, by decide⟩, [97]⟩, none⟩

/-- Honest statement for the round-trip witness: document "hi", substring "h". -/
def rtStmt : Statement := ⟨⟨sha256 [104, 105]⟩, .substring [104]⟩

/-- Witness document "hi". -/
def rtWit : Witness := ⟨[104, 105]⟩

/-- Statement claiming "b" (absent from the document "a"). -/
def c4stmtW : Statement := ⟨onesCommitment, .substring [98]⟩

/-- The parameters `build_circuit_params` assembles for `c4stmt`/`c4wit`:
the lossy decoding of FF FF FF is three replacement characters, so the
claimed replacement-character bytes are found at lossy offset 0. -/
def c4paramsX : CircuitParams :=
  ⟨cfg0, ⟨⟨List.replicate 32 1, by decide⟩, [239, 191, 189]⟩, some ⟨[255, 255, 255], 0⟩⟩

/-- The parameters `build_circuit_params` assembles for `c3stmt`/`c3wit`
(empty substring found at offset 0). -/
def c3paramsX : CircuitParams :=
  ⟨cfg0, ⟨⟨sha256 [97], by decide⟩, []⟩, some ⟨[97], 0⟩⟩

/-- Witness document "ba": the substring "a" first occurs at byte index 1. -/
def c5witB : Witness := ⟨[98, 97]⟩

/-- A syntactically well-formed envelope used to exercise `verify` directly. -/
def c7data : StarkProofData :=
  ⟨List.replicate 32 9, ⟨⟨List.replicate 32 2, by decide⟩, [97]⟩, List.replicate 32 9, cfg0⟩

/-- The statement `c7data` embeds: commitment of twos, claim "a". -/
def c7stmtA : Statement := ⟨⟨List.replicate 32 2⟩, .substring [97]⟩

/-- A statement differing from `c7stmtA` only in its claim. -/
def c7stmtB : Statement := ⟨⟨List.replicate 32 2⟩, .substring [98]⟩

/-! ## Basic facts about the modelled primitives -/

theorem ShaState.digest_length (s : ShaState) : s.digest.length = 32 := by
  simp [ShaState.digest, be4]

/-- SHA-256 always emits exactly 32 bytes. -/
theorem sha256_length (msg : List Nat) : (sha256 msg).length = 32 := by
  unfold sha256
  exact ShaState.digest_length _

/-- SHA-256 agrees with the FIPS 180-4 test vector for "abc". -/
theorem sha256_abc :
    sha256 [97, 98, 99] =
      [186, 120, 22, 191, 143, 1, 207, 234, 65, 65, 64, 222,
       93, 174, 34, 35, 176, 3, 97, 163, 150, 23, 122, 156,
       180, 16, 255, 97, 242, 0, 21, 173] := by decide

/-- A found index points at an occurrence: the pattern is a prefix of the
haystack dropped at the index. -/
theorem findSub_some_occurs {hay pat : List Nat} {k : Nat}
    (h : findSub hay pat = some k) : pat <+: hay.drop k := by
  induction hay generalizing k with
  | nil =>
    unfold findSub at h
    split at h
    · cases h
      rename_i hp
      exact List.isPrefixOf_iff_prefix.mp hp
    · cases h
  | cons a t ih =>
    unfold findSub at h
    split at h
    · cases h
      rename_i hp
      exact List.isPrefixOf_iff_prefix.mp hp
    · rcases Option.map_eq_some'.mp h with ⟨k0, hk0, rfl⟩
      simpa using ih hk0

/-- A found index never exceeds the haystack length. -/
theorem findSub_some_le {hay pat : List Nat} {k : Nat}
    (h : findSub hay pat = some k) : k ≤ hay.length := by
  induction hay generalizing k with
  | nil =>
    unfold findSub at h
    split at h
    · cases h; simp
    · cases h
  | cons a t ih =>
    unfold findSub at h
    split at h
    · cases h; simp
    · rcases Option.map_eq_some'.mp h with ⟨k0, hk0, rfl⟩
      simpa [Nat.succ_le_succ_iff] using ih hk0

/-- A found index is the least index at which the pattern occurs. -/
theorem findSub_some_least {hay pat : List Nat} {k : Nat}
    (h : findSub hay pat = some k) : ∀ j < k, ¬ pat <+: hay.drop j := by
  induction hay generalizing k with
  | nil =>
    unfold findSub at h
    split at h
    · cases h; omega
    · cases h
  | cons a t ih =>
    unfold findSub at h
    split at h
    · cases h; omega
    · rcases Option.map_eq_some'.mp h with ⟨k0, hk0, rfl⟩
      intro j hj
      match j with
      | 0 =>
        rename_i hp
        simpa [List.isPrefixOf_iff_prefix] using hp
      | j0 + 1 =>
        simpa using ih hk0 j0 (by omega)

/-- If the pattern occurs at some dropped position, the search succeeds. -/
theorem findSub_isSome_of_occurs {hay pat : List Nat} {k : Nat}
    (h : pat <+: hay.drop k) : (findSub hay pat).isSome = true := by
  induction hay generalizing k with
  | nil =>
    unfold findSub
    split
    · simp
    · rename_i hp
      simp only [List.drop_nil] at h
      exact absurd (List.isPrefixOf_iff_prefix.mpr h) (by simpa using hp)
  | cons a t ih =>
    unfold findSub
    split
    · simp
    · rename_i hp
      match k with
      | 0 => exact absurd (List.isPrefixOf_iff_prefix.mpr h) (by simpa using hp)
      | k0 + 1 =>
        simp only [List.drop_succ_cons] at h
        simpa using ih h

/-- An occurrence at a dropped position is an infix occurrence. -/
theorem infix_of_prefix_drop {pat hay : List Nat} {k : Nat}
    (h : pat <+: hay.drop k) : pat <:+: hay := by
  rcases h with ⟨r, hr⟩
  refine ⟨hay.take k, r, ?_⟩
  calc hay.take k ++ pat ++ r = hay.take k ++ (pat ++ r) := by simp [List.append_assoc]
    _ = hay.take k ++ hay.drop k := by rw [hr]
    _ = hay := List.take_append_drop k hay

/-- An infix occurrence gives an occurrence at a dropped position. -/
theorem prefix_drop_of_occurrence {pat hay : List Nat}
    (h : pat <:+: hay) : ∃ k, pat <+: hay.drop k := by
  rcases h with ⟨s, r, hr⟩
  refine ⟨s.length, r, ?_⟩
  rw [← hr, List.append_assoc, List.drop_left]

/-- If the pattern occurs nowhere in the haystack, the search fails. -/
theorem findSub_eq_none_of_not_occurs {hay pat : List Nat}
    (h : ¬ pat <:+: hay) : findSub hay pat = none := by
  cases hf : findSub hay pat with
  | none => rfl
  | some k => exact absurd (infix_of_prefix_drop (findSub_some_occurs hf)) h

/-- An `Except` value with `isOk` set is an `ok`. -/
theorem exceptOk_exists {ε α : Type} {e : Except ε α}
    (h : e.isOk = true) : ∃ a, e = .ok a := by
  cases e with
  | ok a => exact ⟨a, rfl⟩
  | error _ => simp [Except.isOk, Except.toBool] at h

/-! ## Shape lemmas for `prove` and `verify` -/

/-- When every chained step succeeds, `prove` packages the envelope. -/
theorem prove_envelope_of {sp : StarkProver} {stmt : Statement} {witness : Witness}
    {params : CircuitParams} {trace : Trace}
    (h1 : sp.build_circuit_params stmt witness = .ok params)
    (h2 : sp.circuit.generate_trace params = .ok trace)
    (h3 : (sp.circuit.verify_constraints trace params).isOk = true) :
    sp.prove stmt witness = ⟨.envelope (StarkProver.generate_stark_proof params trace)⟩ := by
  unfold StarkProver.prove
  rcases exceptOk_exists h3 with ⟨b, hb⟩
  simp only [h1, h2, hb]

/-- When parameter construction fails, `prove` returns the `ERROR:` tag. -/
theorem prove_failTag_of_build_error {sp : StarkProver} {stmt : Statement}
    {witness : Witness} {e : ZkpError}
    (h : sp.build_circuit_params stmt witness = .error e) :
    sp.prove stmt witness = ⟨.failTag .error e.display⟩ := by
  unfold StarkProver.prove
  simp only [h]

/-- Every failure-tagged payload is rejected by `verify`. -/
theorem verify_failTag_false (sp : StarkProver) (stmt : Statement) (tag : FailTag)
    (msg : String) : sp.verify stmt ⟨.failTag tag msg⟩ = false := by
  simp [StarkProver.verify, ProofPayload.isFailTagged]

/-- What `verify` computes on an envelope payload. -/
theorem verify_envelope_eq (sp : StarkProver) (stmt : Statement) (d : StarkProofData) :
    sp.verify stmt ⟨.envelope d⟩ =
      match sp.extract_public_inputs stmt with
      | .error _ => false
      | .ok pi =>
        if d.public_inputs.commitment ≠ pi.commitment ∨
            d.public_inputs.substring ≠ pi.substring then false
        else StarkProver.basic_proof_validation d := by
  unfold StarkProver.verify StarkProver.verify_stark_proof
  simp only [ProofPayload.isFailTagged, decodeEnvelope, Bool.false_eq_true, if_false]
  cases sp.extract_public_inputs stmt with
  | error e => rfl
  | ok pi =>
    by_cases hc : d.public_inputs.commitment ≠ pi.commitment ∨
        d.public_inputs.substring ≠ pi.substring
    · simp [hc]
    · simp [hc]

/-- The structural checks pass on any envelope with 32-byte digests, a
non-empty substring and a non-zero commitment. -/
theorem basic_proof_validation_true {d : StarkProofData}
    (h1 : d.trace_commitment.length = 32) (h2 : d.fri_proof.length = 32)
    (h3 : d.public_inputs.substring ≠ []) (h4 : d.public_inputs.commitment ≠ zeroDigest) :
    StarkProver.basic_proof_validation d = true := by
  simp [StarkProver.basic_proof_validation, h1, h2, h4, List.isEmpty_iff, h3]

/-- The structural checks fail on any envelope with an empty substring. -/
theorem basic_proof_validation_false_of_empty {d : StarkProofData}
    (h : d.public_inputs.substring = []) : StarkProver.basic_proof_validation d = false := by
  simp [StarkProver.basic_proof_validation, h]

/-- Successful parameter construction yields the prover's config, the
statement's public inputs, and a present witness holding the document. -/
theorem build_circuit_params_ok_shape {sp : StarkProver} {stmt : Statement}
    {witness : Witness} {params : CircuitParams}
    (h : sp.build_circuit_params stmt witness = .ok params) :
    params.config = sp.config ∧
    params.public_inputs.commitment.val = stmt.commitment.inner ∧
    params.public_inputs.substring = claimValue stmt ∧
    ∃ k, params.witness = some ⟨witness.plaintext, k⟩ := by
  unfold StarkProver.build_circuit_params at h
  cases he : sp.extract_offset witness stmt with
  | error e =>
    simp only [he] at h
    exact Except.noConfusion h
  | ok k =>
    simp only [he] at h
    unfold digestOfList at h
    by_cases hl : stmt.commitment.inner.length = 32
    · rw [dif_pos hl] at h
      cases h
      exact ⟨rfl, rfl, rfl, k, rfl⟩
    · rw [dif_neg hl] at h
      exact Except.noConfusion h

/-- Explicit form of a successful parameter construction. -/
theorem build_circuit_params_eq {s : StarkProver} {stmt : Statement}
    {witness : Witness} {k : Nat}
    (hf : findSub (utf8Lossy witness.plaintext) (claimValue stmt) = some k)
    (hl : stmt.commitment.inner.length = 32) :
    s.build_circuit_params stmt witness =
      .ok ⟨s.config, ⟨⟨stmt.commitment.inner, hl⟩, claimValue stmt⟩,
           some ⟨witness.plaintext, k⟩⟩ := by
  unfold StarkProver.build_circuit_params StarkProver.extract_offset
  simp only [hf]
  unfold digestOfList
  rw [dif_pos hl]

/-- A length-32 statement commitment makes `extract_public_inputs` succeed. -/
theorem extract_public_inputs_eq {s : StarkProver} {stmt : Statement}
    (hl : stmt.commitment.inner.length = 32) :
    s.extract_public_inputs stmt =
      .ok ⟨⟨stmt.commitment.inner, hl⟩, claimValue stmt⟩ := by
  unfold StarkProver.extract_public_inputs digestOfList
  rw [dif_pos hl]

/-- The native constraint check never returns an error when a witness is
present: every failing cross-check yields `Ok(false)`, not `Err`. -/
theorem verify_constraints_isOk {c : SubstringCircuit} {t : Trace}
    {params : CircuitParams} {w : CircuitWitness}
    (hw : params.witness = some w) :
    (c.verify_constraints t params).isOk = true := by
  unfold SubstringCircuit.verify_constraints SubstringCircuit.verify_hash_constraint
    SubstringCircuit.verify_substring_constraint
  by_cases h1 : sha256 w.plaintext = params.public_inputs.commitment.val
  · by_cases h2 : w.offset + params.public_inputs.substring.length > w.plaintext.length
    · simp [hw, h1, h2, Except.isOk, Except.toBool]
    · by_cases h3 : (w.plaintext.drop w.offset).take params.public_inputs.substring.length =
          params.public_inputs.substring
      · simp [hw, h1, h2, h3, Except.isOk, Except.toBool]
      · simp [hw, h1, h2, h3, Except.isOk, Except.toBool]
  · simp [hw, h1, Except.isOk, Except.toBool]

/-- Parameters within all bounds make the circuit's trace generation succeed. -/
theorem sc_generate_trace_ok {c : SubstringCircuit} {p : CircuitParams}
    {w : CircuitWitness}
    (hw : p.witness = some w)
    (h1 : w.plaintext.length ≤ c.config.max_text_len)
    (h2 : p.public_inputs.substring.length ≤ c.config.max_substring_len)
    (h3 : w.offset + p.public_inputs.substring.length ≤ w.plaintext.length) :
    ∃ t, c.generate_trace p = .ok t := by
  unfold SubstringCircuit.generate_trace SubstringCircuit.validate_params
  simp only [hw]
  rw [if_neg (by omega), if_neg (by omega), if_neg (by omega)]
  exact ⟨_, rfl⟩

/-- Once parameters and a trace are obtained, verifying the produced proof
reduces to the structural validation of its envelope: the embedded public
inputs always equal the ones extracted from the same statement. -/
theorem verify_prove_eq {sp : StarkProver} {stmt : Statement} {witness : Witness}
    {params : CircuitParams} {trace : Trace}
    (hb : sp.build_circuit_params stmt witness = .ok params)
    (ht : sp.circuit.generate_trace params = .ok trace) :
    sp.verify stmt (sp.prove stmt witness) =
      StarkProver.basic_proof_validation (StarkProver.generate_stark_proof params trace) := by
  obtain ⟨hcfg, hcv, hcs, k, hwit⟩ := build_circuit_params_ok_shape hb
  have hvc := verify_constraints_isOk (c := sp.circuit) (t := trace) hwit
  rw [prove_envelope_of hb ht hvc, verify_envelope_eq]
  have hl : stmt.commitment.inner.length = 32 := by
    rw [← hcv]
    exact params.public_inputs.commitment.property
  simp only [extract_public_inputs_eq (s := sp) hl]
  have hA : (StarkProver.generate_stark_proof params trace).public_inputs.commitment =
      (⟨stmt.commitment.inner, hl⟩ : Digest) := Subtype.ext hcv
  have hB : (StarkProver.generate_stark_proof params trace).public_inputs.substring =
      claimValue stmt := hcs
  rw [if_neg (by push_neg; exact ⟨hA, hB⟩)]

/-- A payload that is neither a failure tag nor an envelope never verifies:
deserialization fails and the error becomes `false`. -/
theorem verify_raw_false (sp : StarkProver) (stmt : Statement) (bs : List Nat) :
    sp.verify stmt ⟨.raw bs⟩ = false := by
  unfold StarkProver.verify StarkProver.verify_stark_proof
  simp only [ProofPayload.isFailTagged, decodeEnvelope, Bool.false_eq_true, if_false]
  cases sp.extract_public_inputs stmt <;> rfl

/-! ## Constraint-count lemmas -/

theorem shaConsLoop_length (t : Trace) (L : Nat) (bytes : List Nat) (i : Nat)
    (h : i + bytes.length ≤ 32) :
    (shaConsLoop TraceLayout.default t L bytes i).length =
      if 32 ≤ L then bytes.length else 0 := by
  induction bytes generalizing i with
  | nil => simp [shaConsLoop]
  | cons b rest ih =>
    unfold shaConsLoop
    have hi : i < (TraceLayout.default.sha_state_cols).len := by
      simp only [TraceLayout.default, NRange.len]
      simp only [List.length_cons] at h
      omega
    have hrec := ih (i + 1) (by simp only [List.length_cons] at h; omega)
    by_cases hL : 32 ≤ L
    · simp [hi, hL, hrec]
    · simp [hi, hL, hrec]

theorem subConsRowLoop_length (layout : TraceLayout) (t : Trace) (e : F)
    (rows : List Nat) : (subConsRowLoop layout t e rows).length = 2 * rows.length := by
  induction rows with
  | nil => simp [subConsRowLoop]
  | cons r rest ih => simp [subConsRowLoop, ih]; omega

theorem subConsLoop_length (layout : TraceLayout) (t : Trace) (L : Nat)
    (bytes : List Nat) : (subConsLoop layout t L bytes).length = bytes.length * (2 * L) := by
  induction bytes with
  | nil => simp [subConsLoop]
  | cons b rest ih =>
    simp [subConsLoop, ih, subConsRowLoop_length]
    ring

theorem logicConsRowLoop_length (layout : TraceLayout) (t : Trace)
    (rows : List Nat) : (logicConsRowLoop layout t rows).length = 3 * rows.length := by
  induction rows with
  | nil => simp [logicConsRowLoop]
  | cons r rest ih => simp [logicConsRowLoop, ih]; omega

/-! ## Claims -/

/-- Claim C8 (confirmed): for every statement and every proof whose payload is
a failure tag (`ERROR:`, `TRACE_ERROR:`, `CONSTRAINT_ERROR:`, `STARK_ERROR:`
prefixed), `verify` returns false immediately, before any envelope decoding. -/
theorem C8_failtag_rejection (sp : StarkProver) (stmt : Statement) (tag : FailTag)
    (msg : String) : sp.verify stmt ⟨.failTag tag msg⟩ = false :=
  verify_failTag_false sp stmt tag msg

/-- Claim C10 (counterexample): `compute_trace_length` does not return a value
on witness-less parameters — the source unwraps the witness with `expect`,
which aborts the process; the abort is modelled as `none`. -/
theorem C10_counterexample :
    (TraceGenerator.new cfg0).compute_trace_length c10params = none := rfl

/-- Claim C10 (amended): `compute_trace_length` returns a value on every
`CircuitParams` whose witness is present; on witness-less parameters it
panics (aborts the process) instead of returning. -/
theorem C10_trace_length_total (cfg cfg2 : CircuitConfig) (pi : PublicInputs)
    (w : CircuitWitness) :
    ((TraceGenerator.new cfg).compute_trace_length ⟨cfg2, pi, some w⟩).isSome = true := rfl

/-- Claim C6 (counterexample): `TraceGenerator::generate_trace` succeeds on a
present witness whose 2-byte document exceeds `max_text_len = 1` — the claimed
`InvalidWitness` failure for over-long documents does not happen there. -/
theorem C6_counterexample :
    (c6params.witness = some ⟨[97, 98], 0⟩) ∧
    cfgTiny.max_text_len < 2 ∧
    ((TraceGenerator.new cfgTiny).generate_trace c6params).isOk = true := by
  refine ⟨rfl, by decide, by decide⟩

/-- Claim C6 (amended): `SubstringCircuit::generate_trace` fails, with an
`InvalidWitness` error, exactly when the witness is missing, the document
exceeds `max_text_len`, the substring exceeds `max_substring_len`, or
`offset + |substring| > |document|`, and returns a trace otherwise;
`TraceGenerator::generate_trace` checks only witness presence — it fails
(with `InvalidWitness`) exactly when the witness is missing. -/
theorem C6_failure_conditions (cfg : CircuitConfig) (params : CircuitParams) :
    (((TraceGenerator.new cfg).generate_trace params).isOk = !params.witness.isNone) ∧
    (failsWithInvalidWitness ((TraceGenerator.new cfg).generate_trace params) =
      params.witness.isNone) ∧
    (((SubstringCircuit.new cfg).generate_trace params).isOk =
      !invalidWitnessCondition cfg params) ∧
    (failsWithInvalidWitness ((SubstringCircuit.new cfg).generate_trace params) =
      invalidWitnessCondition cfg params) := by
  cases hw : params.witness with
  | none =>
    refine ⟨?_, ?_, ?_, ?_⟩ <;>
      simp [TraceGenerator.generate_trace, SubstringCircuit.generate_trace,
        SubstringCircuit.validate_params, invalidWitnessCondition, hw,
        failsWithInvalidWitness, Except.isOk, Except.toBool]
  | some w =>
    refine ⟨?_, ?_, ?_, ?_⟩
    · simp [TraceGenerator.generate_trace, hw, Except.isOk, Except.toBool]
    · simp [TraceGenerator.generate_trace, hw, failsWithInvalidWitness]
    · by_cases h1 : w.plaintext.length > cfg.max_text_len
      · simp [SubstringCircuit.generate_trace, SubstringCircuit.validate_params,
          SubstringCircuit.new, invalidWitnessCondition, hw, h1,
          Except.isOk, Except.toBool]
      · by_cases h2 : params.public_inputs.substring.length > cfg.max_substring_len
        · simp [SubstringCircuit.generate_trace, SubstringCircuit.validate_params,
            SubstringCircuit.new, invalidWitnessCondition, hw, h1, h2,
            Except.isOk, Except.toBool]
        · by_cases h3 : w.offset + params.public_inputs.substring.length > w.plaintext.length
          · simp [SubstringCircuit.generate_trace, SubstringCircuit.validate_params,
              SubstringCircuit.new, invalidWitnessCondition, hw, h1, h2, h3,
              Except.isOk, Except.toBool]
          · simp [SubstringCircuit.generate_trace, SubstringCircuit.validate_params,
              SubstringCircuit.new, invalidWitnessCondition, hw, h1, h2, h3,
              Except.isOk, Except.toBool]
    · by_cases h1 : w.plaintext.length > cfg.max_text_len
      · simp [SubstringCircuit.generate_trace, SubstringCircuit.validate_params,
          SubstringCircuit.new, invalidWitnessCondition, hw, h1, failsWithInvalidWitness]
      · by_cases h2 : params.public_inputs.substring.length > cfg.max_substring_len
        · simp [SubstringCircuit.generate_trace, SubstringCircuit.validate_params,
            SubstringCircuit.new, invalidWitnessCondition, hw, h1, h2, failsWithInvalidWitness]
        · by_cases h3 : w.offset + params.public_inputs.substring.length > w.plaintext.length
          · simp [SubstringCircuit.generate_trace, SubstringCircuit.validate_params,
              SubstringCircuit.new, invalidWitnessCondition, hw, h1, h2, h3,
              failsWithInvalidWitness]
          · simp [SubstringCircuit.generate_trace, SubstringCircuit.validate_params,
              SubstringCircuit.new, invalidWitnessCondition, hw, h1, h2, h3,
              failsWithInvalidWitness]

set_option maxRecDepth 100000 in
/-- Claim C9 (counterexample): the number of constraints produced by
`evaluate_constraints` depends on the substring length — on the same 64-row
trace and the same commitment, a 1-byte substring yields 417 constraints and a
2-byte substring yields 545, neither equal to `num_constraints() = 160`. -/
theorem C9_counterexample :
    (SubstringAIR.new cfg0 TraceLayout.default).num_constraints = 160 ∧
    ((SubstringAIR.new cfg0 TraceLayout.default).evaluate_constraints c9trace c9piA).length
      = 417 ∧
    ((SubstringAIR.new cfg0 TraceLayout.default).evaluate_constraints c9trace c9piB).length
      = 545 := by
  refine ⟨rfl, by decide, by decide⟩

/-- Claim C9 (amended): `num_constraints()` equals the closed form
`32 + max_text_len + max_text_len + 2 * max_text_len` for every configuration,
independently of any witness; the length of the list produced by
`evaluate_constraints`, however, is
`(if 32 ≤ rows then 32 else 0) + 2*|substring|*rows + rows + (3*rows + 1)` —
independent of the witness and document content, but proportional to the
disclosed substring length, unlike the claim's count. -/
theorem C9_constraint_counts (cfg : CircuitConfig) (t : Trace) (pi : PublicInputs) :
    (SubstringAIR.new cfg TraceLayout.default).num_constraints =
      32 + cfg.max_text_len + cfg.max_text_len + 2 * cfg.max_text_len ∧
    ((SubstringAIR.new cfg TraceLayout.default).evaluate_constraints t pi).length =
      (if 32 ≤ t.numRows then 32 else 0) + 2 * pi.substring.length * t.numRows +
        t.numRows + (3 * t.numRows + 1) := by
  constructor
  · simp [SubstringAIR.new, SubstringAIR.num_constraints, SubstringAIR.num_sha256_constraints,
      SubstringAIR.num_substring_constraints, SubstringAIR.num_range_constraints,
      SubstringAIR.num_logic_constraints]
    omega
  · have hsha := shaConsLoop_length t t.numRows pi.commitment.val 0
      (by rw [pi.commitment.property])
    have hc : pi.commitment.val.length = 32 := pi.commitment.property
    unfold SubstringAIR.evaluate_constraints SubstringAIR.evaluate_sha256_constraints
      SubstringAIR.evaluate_substring_constraints SubstringAIR.evaluate_range_constraints
      SubstringAIR.evaluate_logic_constraints
    simp [SubstringAIR.new, hsha, hc, subConsLoop_length, logicConsRowLoop_length]
    by_cases hL : 32 ≤ t.numRows
    · simp [hL]; ring
    · simp [hL]; ring

set_option maxRecDepth 100000 in
/-- Claim C1 (counterexample): at commitment `1^32` (not the document's hash),
claim "a", document "a", the native constraint check reports `Ok(false)` on
exactly the parameters `prove` uses, yet `prove` does not produce a
failure-tagged proof — it packages a normal envelope, and `verify` accepts it.
Only `Err` results are converted to failure tags; `Ok(false)` is ignored. -/
theorem C1_counterexample :
    sp0.build_circuit_params c1stmt c1wit = .ok c1params ∧
    (sp0.circuit.generate_trace c1params).map
      (fun t => sp0.circuit.verify_constraints t c1params) = .ok (.ok false) ∧
    (sp0.prove c1stmt c1wit).inner.isFailTagged = false ∧
    sp0.verify c1stmt (sp0.prove c1stmt c1wit) = true := by
  have hb : sp0.build_circuit_params c1stmt c1wit = .ok c1params := by decide
  have hok : (sp0.circuit.generate_trace c1params).isOk = true := by decide
  obtain ⟨tr, htr⟩ := exceptOk_exists hok
  have hwit : c1params.witness = some ⟨[97], 0⟩ := rfl
  refine ⟨hb, by decide, ?_, ?_⟩
  · rw [prove_envelope_of hb htr (verify_constraints_isOk hwit)]
    rfl
  · rw [verify_prove_eq hb htr]
    exact basic_proof_validation_true (sha256_length _) (sha256_length _)
      (show c1params.public_inputs.substring ≠ [] by decide)
      (show c1params.public_inputs.commitment ≠ zeroDigest by decide)

/-- Claim C1 (amended): `prove` is infallible (it always returns a `Proof`),
and its result is a failure-tagged proof exactly when one of the chained steps
— building circuit parameters, generating the trace, or the native constraint
check — returns an error (`Err`); every failure-tagged proof fails `verify`.
The constraint check merely reporting `Ok(false)` is not converted to a
failure tag (see the counterexample). -/
theorem C1_failure_tagging (cfg : CircuitConfig) (stmt : Statement) (witness : Witness) :
    ((StarkProver.new cfg).prove stmt witness).inner.isFailTagged =
      proveStepErrors (StarkProver.new cfg) stmt witness ∧
    (((StarkProver.new cfg).prove stmt witness).inner.isFailTagged &&
      (StarkProver.new cfg).verify stmt ((StarkProver.new cfg).prove stmt witness)) =
      false := by
  cases hb : (StarkProver.new cfg).build_circuit_params stmt witness with
  | error e =>
    constructor <;>
      simp [StarkProver.prove, StarkProver.verify, proveStepErrors, hb,
        ProofPayload.isFailTagged]
  | ok params =>
    cases ht : (StarkProver.new cfg).circuit.generate_trace params with
    | error e =>
      constructor <;>
        simp [StarkProver.prove, StarkProver.verify, proveStepErrors, hb, ht,
          ProofPayload.isFailTagged]
    | ok trace =>
      cases hv : (StarkProver.new cfg).circuit.verify_constraints trace params with
      | error e =>
        constructor <;>
          simp [StarkProver.prove, StarkProver.verify, proveStepErrors, hb, ht, hv,
            ProofPayload.isFailTagged]
      | ok b =>
        constructor <;>
          simp [StarkProver.prove, proveStepErrors, hb, ht, hv, ProofPayload.isFailTagged]

set_option maxRecDepth 400000 in
/-- Claim C2 (code bug): on fully honest parameters — document "ab",
substring "ab" at offset 0, commitment equal to the document's SHA-256
digest, all bounds respected — the trace produced by
`TraceGenerator::generate_trace` does not satisfy the AIR:
`verify_all_constraints` reports false. The substring constraint family pairs
every disclosed byte with every row, so inside the match window the cell
holding byte "b" is compared against the disclosed byte "a". -/
theorem C2_honest_trace_violates_air :
    c2pi.commitment.val = sha256 [97, 98] ∧
    c2params.witness = some ⟨[97, 98], 0⟩ ∧
    (List.drop 0 [97, 98]).take 2 = [97, 98] ∧
    ([97, 98] : List Nat).length ≤ cfg0.max_text_len ∧
    ([97, 98] : List Nat).length ≤ cfg0.max_substring_len ∧
    ((TraceGenerator.new cfg0).generate_trace c2params).map
      (fun t => (SubstringAIR.new cfg0 TraceLayout.default).verify_all_constraints t c2pi) =
      .ok false := by
  refine ⟨rfl, rfl, by decide, by decide, by decide, by decide⟩

/-- Claim C3 (counterexample): document "a" with its honest SHA-256 commitment
and the empty substring satisfy the claim's hypotheses
(`document[0..0] == ""` and `commitment == hash(document)`), yet the produced
proof fails `verify`: the structural check rejects empty substrings. -/
theorem C3_counterexample :
    c3stmt.commitment.inner = sha256 c3wit.plaintext ∧
    (c3wit.plaintext.drop 0).take (claimValue c3stmt).length = claimValue c3stmt ∧
    sp0.verify c3stmt (sp0.prove c3stmt c3wit) = false := by
  have hb : sp0.build_circuit_params c3stmt c3wit = .ok c3paramsX := by decide
  have hok : (sp0.circuit.generate_trace c3paramsX).isOk = true := by decide
  obtain ⟨tr, htr⟩ := exceptOk_exists hok
  refine ⟨rfl, by decide, ?_⟩
  rw [verify_prove_eq hb htr]
  exact basic_proof_validation_false_of_empty rfl

/-- Claim C3 (amended): for every configuration, statement and witness such
that the document contains the claimed substring bytes at some offset, the
statement's commitment is the document's SHA-256 digest, the claimed substring
is non-empty, the document is valid UTF-8 (equivalently, lossy decoding leaves
its bytes unchanged), the document and substring respect the configured
bounds, and the document's digest is not the all-zero digest, the proof
produced by `prove` passes `verify`. -/
theorem C3_round_trip (cfg : CircuitConfig) (stmt : Statement) (witness : Witness)
    (off : Nat)
    (hocc : claimValue stmt <+: witness.plaintext.drop off)
    (hcom : stmt.commitment.inner = sha256 witness.plaintext)
    (hne : claimValue stmt ≠ [])
    (hv : utf8Lossy witness.plaintext = witness.plaintext)
    (hdoc : witness.plaintext.length ≤ cfg.max_text_len)
    (hsub : (claimValue stmt).length ≤ cfg.max_substring_len)
    (hz : sha256 witness.plaintext ≠ List.replicate 32 0) :
    (StarkProver.new cfg).verify stmt ((StarkProver.new cfg).prove stmt witness) = true := by
  obtain ⟨k, hk⟩ := Option.isSome_iff_exists.mp (findSub_isSome_of_occurs hocc)
  have hf : findSub (utf8Lossy witness.plaintext) (claimValue stmt) = some k := by
    rw [hv]; exact hk
  have hl : stmt.commitment.inner.length = 32 := by
    rw [hcom]; exact sha256_length _
  have hb := build_circuit_params_eq (s := StarkProver.new cfg) hf hl
  have hp := findSub_some_occurs hk
  have hkle := findSub_some_le hk
  have hlen : (claimValue stmt).length ≤ witness.plaintext.length - k := by
    have h1 := hp.length_le
    simpa using h1
  obtain ⟨tr, htr⟩ := sc_generate_trace_ok
    (c := (StarkProver.new cfg).circuit)
    (p := ⟨(StarkProver.new cfg).config,
      ⟨⟨stmt.commitment.inner, hl⟩, claimValue stmt⟩, some ⟨witness.plaintext, k⟩⟩)
    rfl hdoc hsub
    (show k + (claimValue stmt).length ≤ witness.plaintext.length by omega)
  rw [verify_prove_eq hb htr]
  refine basic_proof_validation_true (sha256_length _) (sha256_length _) hne ?_
  intro hzero
  apply hz
  rw [← hcom]
  exact congrArg Subtype.val hzero

/-- Claim C3 (witness): the amended round trip holds at the concrete honest
input: document "hi", substring "h", commitment `SHA-256("hi")`. -/
theorem C3_round_trip_witness :
    sp0.verify rtStmt (sp0.prove rtStmt rtWit) = true :=
  C3_round_trip cfg0 rtStmt rtWit 0 (by decide) rfl (by decide) (by decide)
    (by decide) (by decide) (by decide)

/-- Claim C4 (counterexample): with the document FF FF FF (not valid UTF-8)
and the claimed substring EF BF BD (the replacement character), the substring
occurs nowhere in the document, yet the proof produced by `prove` passes
`verify`: lossy decoding turns the document into three replacement characters,
the offset search succeeds there, and the ignored `Ok(false)` constraint check
lets a well-formed envelope through. -/
theorem C4_counterexample :
    (¬ claimValue c4stmt <:+: c4wit.plaintext) ∧
    sp0.verify c4stmt (sp0.prove c4stmt c4wit) = true := by
  have hb : sp0.build_circuit_params c4stmt c4wit = .ok c4paramsX := by decide
  have hok : (sp0.circuit.generate_trace c4paramsX).isOk = true := by decide
  obtain ⟨tr, htr⟩ := exceptOk_exists hok
  refine ⟨by decide, ?_⟩
  rw [verify_prove_eq hb htr]
  exact basic_proof_validation_true (sha256_length _) (sha256_length _)
    (show c4paramsX.public_inputs.substring ≠ [] by decide)
    (show c4paramsX.public_inputs.commitment ≠ zeroDigest by decide)

/-- Claim C4 (amended): for every prover, statement and witness such that the
document is valid UTF-8 (lossy decoding leaves its bytes unchanged) and the
claimed substring occurs nowhere in the document, the proof produced by
`prove` fails `verify`: the offset search fails, `prove` emits an
`ERROR:`-tagged payload, and `verify` rejects every tagged payload. -/
theorem C4_rejection (sp : StarkProver) (stmt : Statement) (witness : Witness)
    (hv : utf8Lossy witness.plaintext = witness.plaintext)
    (hno : ¬ claimValue stmt <:+: witness.plaintext) :
    sp.verify stmt (sp.prove stmt witness) = false := by
  have hf : findSub (utf8Lossy witness.plaintext) (claimValue stmt) = none := by
    rw [hv]; exact findSub_eq_none_of_not_occurs hno
  have hb : sp.build_circuit_params stmt witness =
      .error (.invalidWitness "Substring not found in plaintext") := by
    unfold StarkProver.build_circuit_params StarkProver.extract_offset
    simp only [hf]
  rw [prove_failTag_of_build_error hb]
  exact verify_failTag_false _ _ _ _

/-- Claim C4 (witness): the amended rejection holds at the concrete input:
document "a", claimed substring "b". -/
theorem C4_rejection_witness :
    sp0.verify c4stmtW (sp0.prove c4stmtW c1wit) = false :=
  C4_rejection sp0 c4stmtW c1wit (by decide) (by decide)

/-- Claim C5 (counterexample): on the document FF 61 the byte "a" first occurs
at byte index 1, but `extract_offset` returns 3 — the index of "a" inside the
lossily decoded string EF BF BD 61, not inside the document. -/
theorem C5_counterexample :
    sp0.extract_offset c5wit c5stmt = .ok 3 ∧
    claimValue c5stmt <+: c5wit.plaintext.drop 1 ∧
    (¬ claimValue c5stmt <+: c5wit.plaintext.drop 0) ∧
    (1 : Nat) < 3 := by
  refine ⟨by decide, by decide, by decide, by decide⟩

/-- Claim C5 (amended): for every witness document that is valid UTF-8 (lossy
decoding leaves its bytes unchanged) in which the claimed substring occurs,
`extract_offset` returns the lowest byte index `k` such that
`document[k .. k + |substring|] == substring`. -/
theorem C5_lowest_offset (sp : StarkProver) (witness : Witness) (stmt : Statement)
    (hv : utf8Lossy witness.plaintext = witness.plaintext)
    (ho : claimValue stmt <:+: witness.plaintext) :
    ∃ k, sp.extract_offset witness stmt = .ok k ∧
      claimValue stmt <+: witness.plaintext.drop k ∧
      ∀ j < k, ¬ claimValue stmt <+: witness.plaintext.drop j := by
  obtain ⟨k0, hp0⟩ := prefix_drop_of_occurrence ho
  obtain ⟨k, hk⟩ := Option.isSome_iff_exists.mp (findSub_isSome_of_occurs hp0)
  refine ⟨k, ?_, findSub_some_occurs hk, findSub_some_least hk⟩
  unfold StarkProver.extract_offset
  rw [hv]
  simp only [hk]

/-- Claim C5 (witness): on the document "ba" with claimed substring "a", the
amended statement pins the extracted offset to the lowest occurrence index 1. -/
theorem C5_lowest_offset_witness :
    sp0.extract_offset c5witB c5stmt = .ok 1 := by
  obtain ⟨k, hk, hp, hmin⟩ := C5_lowest_offset sp0 c5witB c5stmt (by decide) (by decide)
  have hk1 : k = 1 := by
    match k, hp, hmin with
    | 0, hp, _ => exact absurd hp (by decide)
    | 1, _, _ => rfl
    | n + 2, hp, _ =>
      exfalso
      rw [show c5witB.plaintext.drop (n + 2) = [] from
        List.drop_eq_nil_of_le (show 2 ≤ n + 2 by omega)] at hp
      exact absurd hp (by decide)
  rw [hk1] at hk
  exact hk

/-- Claim C7 (confirmed): `verify` returns true exactly when the payload is
not a failure tag, decodes as the proof envelope, the embedded public inputs
equal the statement's commitment and claim bytewise, and the structural checks
pass (32-byte trace commitment, 32-byte FRI proof, non-empty substring,
commitment not the all-zero digest); consequently a proof that verifies for a
statement fails `verify` against every statement whose commitment or claim
differs. -/
theorem C7_verify_characterization (sp : StarkProver) (stmt : Statement) (proof : Proof) :
    (sp.verify stmt proof = true ↔
      ∃ d, proof.inner = .envelope d ∧
        d.public_inputs.commitment.val = stmt.commitment.inner ∧
        d.public_inputs.substring = claimValue stmt ∧
        d.trace_commitment.length = 32 ∧ d.fri_proof.length = 32 ∧
        d.public_inputs.substring ≠ [] ∧ d.public_inputs.commitment ≠ zeroDigest) ∧
    (∀ stmt2 : Statement,
      sp.verify stmt proof = true →
      (stmt2.commitment.inner ≠ stmt.commitment.inner ∨
        claimValue stmt2 ≠ claimValue stmt) →
      sp.verify stmt2 proof = false) := by
  have key : ∀ s : Statement, sp.verify s proof = true ↔
      ∃ d, proof.inner = .envelope d ∧
        d.public_inputs.commitment.val = s.commitment.inner ∧
        d.public_inputs.substring = claimValue s ∧
        d.trace_commitment.length = 32 ∧ d.fri_proof.length = 32 ∧
        d.public_inputs.substring ≠ [] ∧ d.public_inputs.commitment ≠ zeroDigest := by
    intro s
    obtain ⟨payload⟩ := proof
    cases payload with
    | failTag tag msg =>
      rw [verify_failTag_false]
      simp
    | raw bs =>
      rw [verify_raw_false]
      simp
    | envelope d =>
      rw [verify_envelope_eq]
      by_cases hl : s.commitment.inner.length = 32
      · simp only [extract_public_inputs_eq (s := sp) hl]
        constructor
        · intro h
          by_cases hc : d.public_inputs.commitment ≠ (⟨s.commitment.inner, hl⟩ : Digest) ∨
              d.public_inputs.substring ≠ claimValue s
          · rw [if_pos hc] at h
            simp at h
          · rw [if_neg hc] at h
            push_neg at hc
            unfold StarkProver.basic_proof_validation at h
            simp only [Bool.and_eq_true] at h
            obtain ⟨⟨⟨h1, h2⟩, h3⟩, h4⟩ := h
            refine ⟨d, rfl, congrArg Subtype.val hc.1, hc.2,
              of_decide_eq_true h1, of_decide_eq_true h2, ?_, of_decide_eq_true h4⟩
            intro hnil
            rw [hnil] at h3
            simp at h3
        · rintro ⟨d2, hd2, h1, h2, h3, h4, h5, h6⟩
          injection hd2 with hdd
          subst hdd
          rw [if_neg (by push_neg; exact ⟨Subtype.ext h1, h2⟩)]
          exact basic_proof_validation_true h3 h4 h5 h6
      · have hex : sp.extract_public_inputs s =
            .error (.invalidPublicInput "Invalid commitment length") := by
          unfold StarkProver.extract_public_inputs digestOfList
          rw [dif_neg hl]
        simp only [hex]
        constructor
        · intro h
          simp at h
        · rintro ⟨d2, hd2, h1, -, -, -, -, -⟩
          exfalso
          apply hl
          rw [← h1]
          exact d2.public_inputs.commitment.property
  refine ⟨key stmt, ?_⟩
  intro stmt2 hv hne
  by_contra hfalse
  have hv2 : sp.verify stmt2 proof = true := by
    cases hb2 : sp.verify stmt2 proof
    · exact absurd hb2 hfalse
    · rfl
  obtain ⟨d, hd, h1, h2, -⟩ := (key stmt).mp hv
  obtain ⟨d2, hd2, h12, h22, -⟩ := (key stmt2).mp hv2
  rw [hd] at hd2
  injection hd2 with hdd
  subst hdd
  rcases hne with hne | hne
  · exact hne (by rw [← h12, h1])
  · exact hne (by rw [← h22, h2])

/-- Claim C7 (witness): the characterization evaluated at a concrete envelope:
it verifies against the statement it embeds and fails against a statement
whose claim differs. -/
theorem C7_verify_characterization_witness :
    sp0.verify c7stmtA ⟨.envelope c7data⟩ = true ∧
    sp0.verify c7stmtB ⟨.envelope c7data⟩ = false := by
  have h := C7_verify_characterization sp0 c7stmtA ⟨.envelope c7data⟩
  have hv := h.1.mpr ⟨c7data, rfl, by decide, by decide, by decide, by decide,
    by decide, by decide⟩
  exact ⟨hv, h.2 c7stmtB hv (by decide)⟩
